import Mathlib

/-!
Verification of the field-line tracing module (`pfsspy/tracing.py`).

The module defines an abstract `Tracer` with a static shape validator
`validate_seeds_shape`, and a concrete `PythonTracer` whose `trace` method
promotes the seed input with `np.atleast_2d`, validates its shape, and then,
for each seed row, integrates one streamline in each direction via the field
solution's `_integrate_one_way`, reverses the backward half
(`np.flip(xback, axis=1)` on the coordinate-major `(3, nsteps)` array, i.e.
reversal of the point order), concatenates the two halves
(`np.row_stack((xback.T, xforw.T))`), scales by the solar radius constant and
packs the three coordinate columns into a `FieldLine`.

`_integrate_one_way` and the `FieldLine` class live outside this module; the
integrator is modelled from the specification (an ordered point sequence from
the seed to the stopping point, plus a status flag), and the `FieldLine` is
modelled as exactly the record of data the tracer passes to its constructor.
-/

namespace Pfsspy

/-- A numpy array of rank 0, 1, 2 or 3, as far as the tracing code observes
it: rank ( `ndim` ), shape, and — for rank 2 — its rows, which is what
`for seed in seeds` iterates over.  For rank 2 the second shape entry is
carried as `ncols`; a real numpy array is rectangular, so every row has
length `ncols` (the model does not force this, rectangularity is assumed as
a hypothesis where a theorem needs it). -/
inductive NDArray (α : Type) where
  | scalar (x : α)
  | oneD (xs : List α)
  | twoD (ncols : ℕ) (rows : List (List α))
  | threeD (n2 n3 : ℕ) (slabs : List (List (List α)))
deriving DecidableEq, Repr

namespace NDArray

variable {α : Type}

/-- `a.ndim` of numpy. -/
def ndim : NDArray α → ℕ
  | scalar _ => 0
  | oneD _ => 1
  | twoD _ _ => 2
  | threeD _ _ _ => 3

/-- `a.shape` of numpy, as a list of extents, one per axis. -/
def shape : NDArray α → List ℕ
  | scalar _ => []
  | oneD xs => [xs.length]
  | twoD ncols rows => [rows.length, ncols]
  | threeD n2 n3 slabs => [slabs.length, n2, n3]

/-- The rows of a rank-2 array, which is what iterating over it yields.
The tracer only iterates after its shape validation has passed, so only the
rank-2 case is ever reached; the other ranks get a junk value. -/
def rows : NDArray α → List (List α)
  | twoD _ r => r
  | _ => []

end NDArray

/-- `np.atleast_2d`: a scalar becomes a `(1, 1)` array, a 1-D array of
length `n` becomes a `(1, n)` array, and arrays of rank ≥ 2 pass through
unchanged. -/
def atleast_2d {α : Type} : NDArray α → NDArray α
  | .scalar x => .twoD 1 [[x]]
  | .oneD xs => .twoD xs.length [xs]
  | a => a

/-- The two `ValueError`s that `Tracer.validate_seeds_shape` can raise,
each carrying the shape interpolated into its message. -/
inductive SeedsError where
  | notTwoD (shape : List ℕ)
  | badSecondDim (shape : List ℕ)
deriving DecidableEq, Repr

/-- `Tracer.validate_seeds_shape`: raises unless the array is rank 2
with second dimension exactly 3.  The checks inspect only `ndim` and
`shape`, never the element values, which the polymorphism in `α` makes
manifest. -/
def validate_seeds_shape {α : Type} (seeds : NDArray α) : Except SeedsError Unit :=
  if seeds.ndim = 2 then
    if seeds.shape.getD 1 0 = 3 then Except.ok ()
    else Except.error (SeedsError.badSecondDim seeds.shape)
  else Except.error (SeedsError.notTwoD seeds.shape)

/-- Modelled from the spec: the status flag of one half-trace of the
streamline integrator (`reached-inner`, `reached-outer`,
`max-steps-exceeded`); `_integrate_one_way` itself is not part of this
module. -/
inductive HalfStatus where
  | reachedInner
  | reachedOuter
  | maxStepsExceeded
deriving DecidableEq, Repr

/-- Modelled from the spec: the result of one call of the streamline
integrator (`_integrate_one_way`, not part of this module): the ordered
sequence of 3-coordinate points from the seed to the stopping point
inclusive, plus a status flag.  The `(3, nsteps)` coordinate-major array of
the implementation is represented by its list of points. -/
structure HalfTrace (α : Type) where
  points : List (List α)
  status : HalfStatus
deriving DecidableEq, Repr

/-- Modelled from the spec: the slice of the precomputed field solution
object (`pfsspy.Output`, not part of this module) that the tracer uses: the
streamline integrator `_integrate_one_way (direction, seed, rtol, atol)` and
the epoch tag `dtime` attached to the produced field lines.  The object is
built before tracing starts and is read-only throughout, so it is a plain
record of functions with no state. -/
structure Output (α : Type) where
  integrate_one_way : ℤ → List α → ℚ → ℚ → HalfTrace α
  dtime : ℕ

/-- `PythonTracer`: its constructor stores the two tolerances, nothing
else, and performs no check on them. -/
structure PythonTracer where
  atol : ℚ
  rtol : ℚ
deriving DecidableEq, Repr

/-- `PythonTracer.__init__(atol=1e-4, rtol=1e-4)`: it assigns
`self.atol = atol` and `self.rtol = rtol` unconditionally — any values,
of any sign, are accepted and stored; there is no `max_steps` parameter. -/
def PythonTracer.init (atol rtol : ℚ) : PythonTracer :=
  { atol := atol, rtol := rtol }

/-- The default tolerance `1e-4` of `PythonTracer.__init__`. -/
def defaultTol : ℚ := 1 / 10000

/-- The `FieldLine` as the tracer constructs it: the three scaled coordinate
columns `xout[:, 0..2] * const.R_sun`, the fixed frame and representation
strings, the epoch from the output, and the `None` expansion factor the
tracer assigns.  The code also stores a back reference
`fline._output = output`; that is the very field-solution object the caller
passed in, identical for every line of the batch and never written during
tracing, so it is not part of the per-line data modelled here. -/
structure FieldLine (α : Type) where
  x : List α
  y : List α
  z : List α
  frame : String
  obstime : ℕ
  representation_type : String
  expansion_factor : Option ℚ
deriving DecidableEq, Repr

/-- The point sequence a `FieldLine` stores, recovered from its three
coordinate columns. -/
def FieldLine.points {α : Type} (fl : FieldLine α) : List (α × α × α) :=
  fl.x.zip (fl.y.zip fl.z)

/-- One invocation of `output._integrate_one_way`, recorded with all four
arguments the tracer passes. -/
structure IntegrationCall (α : Type) where
  direction : ℤ
  seed : List α
  rtol : ℚ
  atol : ℚ
deriving DecidableEq, Repr

/-- The body of the `for seed in seeds` loop of `PythonTracer.trace`:
integrate forward (direction `1`) and backward (direction `-1`) from the
seed, reverse the backward half's point order (`np.flip(xback, axis=1)` on
the coordinate-major array), stack the two halves
(`np.row_stack((xback.T, xforw.T))`), and build the `FieldLine` from the
scaled coordinate columns.  `rsun` is the multiplication by the constant
`const.R_sun` applied to every coordinate, kept as a parameter so the model
is polymorphic in the coordinate type. -/
def PythonTracer.traceOne {α : Type} [Inhabited α] (t : PythonTracer)
    (output : Output α) (rsun : α → α) (seed : List α) : FieldLine α :=
  let xforw := (output.integrate_one_way 1 seed t.rtol t.atol).points
  let xback := (output.integrate_one_way (-1) seed t.rtol t.atol).points
  let xbackFlipped := xback.reverse
  let xout := xbackFlipped ++ xforw
  { x := xout.map (fun p => rsun (p.getD 0 default)),
    y := xout.map (fun p => rsun (p.getD 1 default)),
    z := xout.map (fun p => rsun (p.getD 2 default)),
    frame := "HeliographicCarrington",
    obstime := output.dtime,
    representation_type := "cartesian",
    expansion_factor := none }

/-- The integrator invocations the loop body makes for one seed, in order:
first direction `1`, then direction `-1`, each with the stored tolerances. -/
def PythonTracer.traceOneCalls {α : Type} (t : PythonTracer) (seed : List α) :
    List (IntegrationCall α) :=
  [⟨1, seed, t.rtol, t.atol⟩, ⟨-1, seed, t.rtol, t.atol⟩]

/-- `PythonTracer.trace(seeds, output)`, instrumented: alongside its result
it returns the list of `_integrate_one_way` invocations it performs.  The
method promotes the input with `np.atleast_2d`, validates the shape (a
`ValueError` there propagates to the caller and nothing else runs), then
accumulates one `FieldLine` per seed row in order. -/
def PythonTracer.traceWithCalls {α : Type} [Inhabited α] (t : PythonTracer)
    (output : Output α) (rsun : α → α) (seeds : NDArray α) :
    Except SeedsError (List (FieldLine α)) × List (IntegrationCall α) :=
  let seeds2 := atleast_2d seeds
  match validate_seeds_shape seeds2 with
  | Except.error e => (Except.error e, [])
  | Except.ok _ =>
      (Except.ok (seeds2.rows.map (t.traceOne output rsun)),
       seeds2.rows.flatMap (t.traceOneCalls))

/-- `PythonTracer.trace(seeds, output)`: the returned list of field lines
(or the validation error). -/
def PythonTracer.trace {α : Type} [Inhabited α] (t : PythonTracer)
    (output : Output α) (rsun : α → α) (seeds : NDArray α) :
    Except SeedsError (List (FieldLine α)) :=
  (t.traceWithCalls output rsun seeds).1

/-- A raw floating-point coordinate as the validator sees it: either a
finite value or one of the non-finite IEEE values (NaN, ±Inf).  Arithmetic
on the non-finite values is irrelevant here; what matters is that the shape
validator never inspects coordinate values at all, so non-finite ones flow
through it. -/
inductive FVal where
  | fin (q : ℚ)
  | nan
  | inf (neg : Bool)
deriving DecidableEq, Repr

/-- Whether a coordinate value is finite. -/
def FVal.isFinite : FVal → Bool
  | FVal.fin _ => true
  | _ => false

instance : Inhabited FVal := ⟨FVal.fin 0⟩

/-- The scaling the tracer applies to one raw integrator point to make one
stored field-line point: pick the three coordinates and multiply each by
`const.R_sun` (the multiplication is the parameter `rsun`). -/
def scalePoint {α : Type} [Inhabited α] (rsun : α → α) (p : List α) :
    α × α × α :=
  (rsun (p.getD 0 default), rsun (p.getD 1 default), rsun (p.getD 2 default))

/-- A tracer with the default tolerances of `PythonTracer.__init__`. -/
def t0 : PythonTracer := PythonTracer.init defaultTol defaultTol

/-- A concrete field solution over integer coordinates for evaluation: the
forward half of every seed runs from the seed to `[2, 0, 0]` and reaches the
outer boundary, the backward half runs from the seed to `[1, 1, 0]` and
reaches the inner boundary.  Both halves begin at the seed, as the
integrator contract requires. -/
def sampleOutput : Output ℤ :=
  { integrate_one_way := fun d seed _ _ =>
      if d = 1 then ⟨[seed, [2, 0, 0]], HalfStatus.reachedOuter⟩
      else ⟨[seed, [1, 1, 0]], HalfStatus.reachedInner⟩,
    dtime := 7 }

/-- A field solution whose forward half hits the step limit
(`max-steps-exceeded`), with the same point sequences as
`outputClosed`. -/
def outputMaxSteps : Output ℤ :=
  { integrate_one_way := fun d seed _ _ =>
      if d = 1 then ⟨[seed, [2, 0, 0]], HalfStatus.maxStepsExceeded⟩
      else ⟨[seed, [1, 1, 0]], HalfStatus.reachedInner⟩,
    dtime := 7 }

/-- A field solution whose both halves reach the inner boundary (a closed
line), with the same point sequences as `outputMaxSteps`. -/
def outputClosed : Output ℤ :=
  { integrate_one_way := fun d seed _ _ =>
      if d = 1 then ⟨[seed, [2, 0, 0]], HalfStatus.reachedInner⟩
      else ⟨[seed, [1, 1, 0]], HalfStatus.reachedInner⟩,
    dtime := 7 }

/-- A concrete field solution over raw floating-point coordinates: every
half-trace returns just the seed itself. -/
def outputFVal : Output FVal :=
  { integrate_one_way := fun _ seed _ _ => ⟨[seed], HalfStatus.reachedInner⟩,
    dtime := 0 }

/-- A well-shaped `(1, 3)` seed batch whose single seed has a NaN first
coordinate. -/
def nanBatch : NDArray FVal :=
  NDArray.twoD 3 [[FVal.nan, FVal.fin 0, FVal.fin 0]]

/-- A well-shaped `(2, 3)` integer seed batch. -/
def seedsBatch : NDArray ℤ :=
  NDArray.twoD 3 [[1, 0, 0], [5, 0, 0]]

/-- A malformed `(1, 2)` seed batch: rank 2 but second dimension 2. -/
def badBatch : NDArray ℤ :=
  NDArray.twoD 2 [[1, 2]]

/-- Zipping three maps of one list gives the map of the triple. -/
theorem zip_map_triple {α β : Type} (f g h : α → β) (l : List α) :
    (l.map f).zip ((l.map g).zip (l.map h)) =
      l.map (fun a => (f a, g a, h a)) := by
  induction l with
  | nil => rfl
  | cons a l ih => simp [ih]

/-- The point sequence of a traced field line, unfolded: the backward
half's points reversed, concatenated with the forward half's points, each
point scaled.  Shared by the stitching theorems below. -/
theorem traceOne_points_aux {α : Type} [Inhabited α] (t : PythonTracer)
    (output : Output α) (rsun : α → α) (seed : List α) :
    (t.traceOne output rsun seed).points =
      (((output.integrate_one_way (-1) seed t.rtol t.atol).points).reverse ++
          (output.integrate_one_way 1 seed t.rtol t.atol).points).map
        (scalePoint rsun) := by
  unfold PythonTracer.traceOne FieldLine.points
  exact zip_map_triple _ _ _ _

/-- C1: for every seed batch that passes shape validation, `trace` returns
a list with exactly one field line per seed row, and the i-th returned
field line is the one traced from the i-th seed row (order
preservation). -/
theorem trace_preserves_batch_order {α : Type} [Inhabited α]
    (t : PythonTracer) (output : Output α) (rsun : α → α)
    (seeds : NDArray α)
    (h : validate_seeds_shape (atleast_2d seeds) = Except.ok ()) :
    ∃ flines : List (FieldLine α),
      t.trace output rsun seeds = Except.ok flines ∧
      flines.length = (atleast_2d seeds).rows.length ∧
      ∀ i : ℕ,
        flines[i]? =
          ((atleast_2d seeds).rows[i]?).map (t.traceOne output rsun) := by
  refine ⟨(atleast_2d seeds).rows.map (t.traceOne output rsun), ?_, ?_, ?_⟩
  · unfold PythonTracer.trace PythonTracer.traceWithCalls
    simp [h]
  · simp
  · intro i
    simp [List.getElem?_map]

/-- C1 witness: the theorem applied to a concrete batch of two seeds. -/
theorem trace_preserves_batch_order_witness :
    validate_seeds_shape (atleast_2d seedsBatch) = Except.ok () ∧
    ∃ flines : List (FieldLine ℤ),
      t0.trace sampleOutput id seedsBatch = Except.ok flines ∧
      flines.length = (atleast_2d seedsBatch).rows.length ∧
      ∀ i : ℕ,
        flines[i]? =
          ((atleast_2d seedsBatch).rows[i]?).map
            (t0.traceOne sampleOutput id) :=
  ⟨rfl, trace_preserves_batch_order t0 sampleOutput id seedsBatch rfl⟩

/-- C3: shape validation fails exactly when the batch is not rank 2 or its
second dimension is not 3, and every `(n, 3)` batch passes. -/
theorem validate_seeds_shape_iff (α : Type) :
    (∀ seeds : NDArray α,
      (∃ e, validate_seeds_shape seeds = Except.error e) ↔
        (seeds.ndim ≠ 2 ∨ seeds.shape.getD 1 0 ≠ 3)) ∧
    (∀ rows : List (List α),
      validate_seeds_shape (NDArray.twoD 3 rows) = Except.ok ()) := by
  constructor
  · intro seeds
    unfold validate_seeds_shape
    by_cases h1 : seeds.ndim = 2 <;> by_cases h2 : seeds.shape.getD 1 0 = 3 <;>
      rw [List.getD_eq_getElem?_getD] at h2 <;> simp [h1, h2]
  · intro rows
    rfl

/-- C7: the stitched field line's point sequence is the inward-direction
(`-1`) sequence reversed, followed by the outward-direction (`1`)
sequence, with each point scaled by the solar radius. -/
theorem traceOne_stitch_order {α : Type} [Inhabited α] (t : PythonTracer)
    (output : Output α) (rsun : α → α) (seed : List α) :
    (t.traceOne output rsun seed).points =
      (((output.integrate_one_way (-1) seed t.rtol t.atol).points).reverse ++
          (output.integrate_one_way 1 seed t.rtol t.atol).points).map
        (scalePoint rsun) :=
  traceOne_points_aux t output rsun seed

/-- C2 counterexample: with an integrator obeying the contract (both
halves begin at the seed), the seed point appears twice, not once, in the
stitched point sequence — the code performs no de-duplication. -/
theorem stitched_seed_appears_twice :
    (sampleOutput.integrate_one_way 1 [1, 0, 0] t0.rtol t0.atol).points.head? =
      some [1, 0, 0] ∧
    (sampleOutput.integrate_one_way (-1) [1, 0, 0] t0.rtol t0.atol).points.head? =
      some [1, 0, 0] ∧
    ((t0.traceOne sampleOutput id [1, 0, 0]).points).count
        ((1 : ℤ), (0 : ℤ), (0 : ℤ)) = 2 := by
  refine ⟨rfl, rfl, ?_⟩
  decide

/-- C2 amended: when both half-traces begin with the seed, the stitched
point sequence contains the (scaled) seed twice in a row at the junction:
it is the backward tail reversed, then the seed, then the seed again, then
the forward tail. -/
theorem stitched_seed_duplicated_at_junction {α : Type} [Inhabited α]
    (t : PythonTracer) (output : Output α) (rsun : α → α) (seed : List α)
    (tb tf : List (List α))
    (hb : (output.integrate_one_way (-1) seed t.rtol t.atol).points = seed :: tb)
    (hf : (output.integrate_one_way 1 seed t.rtol t.atol).points = seed :: tf) :
    (t.traceOne output rsun seed).points =
      (tb.reverse.map (scalePoint rsun)) ++
        scalePoint rsun seed :: scalePoint rsun seed ::
          (tf.map (scalePoint rsun)) := by
  rw [traceOne_points_aux, hb, hf]
  simp

/-- C2 amended witness: the amended theorem applied to the concrete
solution, where both half-point lists begin with the seed. -/
theorem stitched_seed_duplicated_at_junction_witness :
    (t0.traceOne sampleOutput id [1, 0, 0]).points =
      (([[(1 : ℤ), 1, 0]]).reverse.map (scalePoint id)) ++
        scalePoint id [1, 0, 0] :: scalePoint id [1, 0, 0] ::
          (([[(2 : ℤ), 0, 0]]).map (scalePoint id)) :=
  stitched_seed_duplicated_at_junction t0 sampleOutput id [1, 0, 0]
    [[1, 1, 0]] [[2, 0, 0]] rfl rfl

/-- C4 counterexample: a well-shaped batch whose seed has a NaN coordinate
passes validation, and the non-finite seed is handed to the integrator —
no `InvalidSeedValueError` exists on this path. -/
theorem nan_seed_reaches_integrator :
    FVal.isFinite FVal.nan = false ∧
    validate_seeds_shape (atleast_2d nanBatch) = Except.ok () ∧
    (t0.traceWithCalls outputFVal id nanBatch).2 =
      [⟨1, [FVal.nan, FVal.fin 0, FVal.fin 0], t0.rtol, t0.atol⟩,
       ⟨-1, [FVal.nan, FVal.fin 0, FVal.fin 0], t0.rtol, t0.atol⟩] :=
  ⟨rfl, rfl, rfl⟩

/-- C4 amended: seed validation checks only the shape; any seed of a
well-shaped batch — also one with a non-finite coordinate — passes
validation and reaches the integrator. -/
theorem nonfinite_seed_not_rejected (t : PythonTracer) (output : Output FVal)
    (rsun : FVal → FVal) (rows : List (List FVal)) (seed : List FVal)
    (hmem : seed ∈ rows) (hnf : ∃ c ∈ seed, FVal.isFinite c = false) :
    validate_seeds_shape (atleast_2d (NDArray.twoD 3 rows)) = Except.ok () ∧
    IntegrationCall.mk 1 seed t.rtol t.atol ∈
      (t.traceWithCalls output rsun (NDArray.twoD 3 rows)).2 := by
  refine ⟨rfl, ?_⟩
  show IntegrationCall.mk 1 seed t.rtol t.atol ∈ rows.flatMap t.traceOneCalls
  rw [List.mem_flatMap]
  exact ⟨seed, hmem, by simp [PythonTracer.traceOneCalls]⟩

/-- C4 amended witness: the amended theorem applied to the NaN batch. -/
theorem nonfinite_seed_not_rejected_witness :
    ([FVal.nan, FVal.fin 0, FVal.fin 0] ∈ [[FVal.nan, FVal.fin 0, FVal.fin 0]]) ∧
    (validate_seeds_shape
        (atleast_2d (NDArray.twoD 3 [[FVal.nan, FVal.fin 0, FVal.fin 0]])) =
      Except.ok () ∧
    IntegrationCall.mk 1 [FVal.nan, FVal.fin 0, FVal.fin 0] t0.rtol t0.atol ∈
      (t0.traceWithCalls outputFVal id
          (NDArray.twoD 3 [[FVal.nan, FVal.fin 0, FVal.fin 0]])).2) :=
  ⟨List.mem_singleton.mpr rfl,
   nonfinite_seed_not_rejected t0 outputFVal id
     [[FVal.nan, FVal.fin 0, FVal.fin 0]] [FVal.nan, FVal.fin 0, FVal.fin 0]
     (List.mem_singleton.mpr rfl) ⟨FVal.nan, by decide⟩⟩

/-- C5 counterexample: the same seed traced against a solution whose
forward half hits the step limit and against one where both halves reach
the inner boundary (a closed line) yields identical field lines — the
trace result carries no non-converged marker that downstream
classification could use. -/
theorem max_steps_line_indistinguishable :
    (outputMaxSteps.integrate_one_way 1 [1, 0, 0] t0.rtol t0.atol).status =
      HalfStatus.maxStepsExceeded ∧
    (outputClosed.integrate_one_way 1 [1, 0, 0] t0.rtol t0.atol).status =
      HalfStatus.reachedInner ∧
    (outputClosed.integrate_one_way (-1) [1, 0, 0] t0.rtol t0.atol).status =
      HalfStatus.reachedInner ∧
    t0.trace outputMaxSteps id (NDArray.twoD 3 [[1, 0, 0]]) =
      t0.trace outputClosed id (NDArray.twoD 3 [[1, 0, 0]]) :=
  ⟨rfl, rfl, rfl, rfl⟩

/-- C5 amended: the trace result is a function of the integrator's point
sequences (and the epoch) alone — the status flags, including
`max-steps-exceeded`, leave no mark on the returned field lines. -/
theorem trace_ignores_integrator_status {α : Type} [Inhabited α]
    (t : PythonTracer) (o1 o2 : Output α) (rsun : α → α) (seeds : NDArray α)
    (hpts : ∀ (d : ℤ) (s : List α) (r a : ℚ),
      (o1.integrate_one_way d s r a).points = (o2.integrate_one_way d s r a).points)
    (hdt : o1.dtime = o2.dtime) :
    t.trace o1 rsun seeds = t.trace o2 rsun seeds := by
  have hone : t.traceOne o1 rsun = t.traceOne o2 rsun := by
    funext s
    unfold PythonTracer.traceOne
    rw [hpts, hpts, hdt]
  unfold PythonTracer.trace PythonTracer.traceWithCalls
  cases hv : validate_seeds_shape (atleast_2d seeds) with
  | error e => simp [hv]
  | ok u => simp [hv, hone]

/-- C5 amended witness: the amended theorem applied to the two concrete
solutions whose point sequences agree. -/
theorem trace_ignores_integrator_status_witness :
    (∀ (d : ℤ) (s : List ℤ) (r a : ℚ),
      (outputMaxSteps.integrate_one_way d s r a).points =
        (outputClosed.integrate_one_way d s r a).points) ∧
    t0.trace outputMaxSteps id seedsBatch = t0.trace outputClosed id seedsBatch :=
  ⟨fun d s r a => by by_cases h : d = 1 <;>
      simp [outputMaxSteps, outputClosed, h],
   trace_ignores_integrator_status t0 outputMaxSteps outputClosed id seedsBatch
     (fun d s r a => by by_cases h : d = 1 <;>
       simp [outputMaxSteps, outputClosed, h])
     rfl⟩

/-- C6 counterexample: the configuration surface has no `max_steps` option
and does not fail fast — a negative tolerance pair is accepted, stored,
and flows unchanged into the integrator calls of a subsequent trace. -/
theorem init_accepts_invalid_tolerances :
    PythonTracer.init (-1) (-1) = PythonTracer.mk (-1) (-1) ∧
    ((PythonTracer.init (-1) (-1)).traceWithCalls sampleOutput id
        (NDArray.twoD 3 [[1, 0, 0]])).2 =
      [⟨1, [1, 0, 0], -1, -1⟩, ⟨-1, [1, 0, 0], -1, -1⟩] :=
  ⟨rfl, rfl⟩

/-- C6 amended: the constructor accepts only the two tolerances, stores
them without any validation — even non-positive values — and tracing then
proceeds normally on any well-shaped batch. -/
theorem init_stores_tolerances_unvalidated {α : Type} [Inhabited α]
    (atol rtol : ℚ) (h : atol ≤ 0 ∨ rtol ≤ 0) (output : Output α)
    (rsun : α → α) (rows : List (List α)) :
    (PythonTracer.init atol rtol).atol = atol ∧
    (PythonTracer.init atol rtol).rtol = rtol ∧
    ∃ flines,
      (PythonTracer.init atol rtol).trace output rsun (NDArray.twoD 3 rows) =
        Except.ok flines := by
  refine ⟨rfl, rfl, ?_⟩
  exact ⟨rows.map ((PythonTracer.init atol rtol).traceOne output rsun), rfl⟩

/-- C6 amended witness: the amended theorem applied to a negative absolute
tolerance. -/
theorem init_stores_tolerances_unvalidated_witness :
    ((-2 : ℚ) ≤ 0 ∨ (3 : ℚ) ≤ 0) ∧
    ((PythonTracer.init (-2) 3).atol = -2 ∧
      (PythonTracer.init (-2) 3).rtol = 3 ∧
      ∃ flines,
        (PythonTracer.init (-2) 3).trace sampleOutput id
            (NDArray.twoD 3 [[1, 0, 0]]) =
          Except.ok flines) :=
  ⟨Or.inl (by norm_num),
   init_stores_tolerances_unvalidated (-2) 3 (Or.inl (by norm_num))
     sampleOutput id [[1, 0, 0]]⟩

/-- C8: when shape validation of the (promoted) batch fails, `trace`
propagates that error and performs no integrator call at all — the whole
batch is rejected before any integration starts. -/
theorem trace_rejects_whole_batch_first {α : Type} [Inhabited α]
    (t : PythonTracer) (output : Output α) (rsun : α → α)
    (seeds : NDArray α) (e : SeedsError)
    (h : validate_seeds_shape (atleast_2d seeds) = Except.error e) :
    t.traceWithCalls output rsun seeds = (Except.error e, []) := by
  unfold PythonTracer.traceWithCalls
  simp [h]

/-- C8 witness: the theorem applied to a concrete `(1, 2)`-shaped batch. -/
theorem trace_rejects_whole_batch_first_witness :
    validate_seeds_shape (atleast_2d badBatch) =
      Except.error (SeedsError.badSecondDim [1, 2]) ∧
    t0.traceWithCalls sampleOutput id badBatch =
      (Except.error (SeedsError.badSecondDim [1, 2]), []) :=
  ⟨rfl,
   trace_rejects_whole_batch_first t0 sampleOutput id badBatch
     (SeedsError.badSecondDim [1, 2]) rfl⟩

/-- C9: tracing is independent per seed — for a rectangular `(n, 3)`
batch, the i-th field line of the batch trace equals the single field line
obtained by tracing the i-th seed alone. -/
theorem trace_independent_per_seed {α : Type} [Inhabited α]
    (t : PythonTracer) (output : Output α) (rsun : α → α)
    (rows : List (List α)) (hrect : ∀ r ∈ rows, r.length = 3) :
    ∃ flines : List (FieldLine α),
      t.trace output rsun (NDArray.twoD 3 rows) = Except.ok flines ∧
      flines.length = rows.length ∧
      ∀ i : ℕ,
        (rows[i]?).map (fun seed => t.trace output rsun (NDArray.oneD seed)) =
          (flines[i]?).map (fun fl => Except.ok [fl]) := by
  refine ⟨rows.map (t.traceOne output rsun), rfl, by simp, ?_⟩
  intro i
  cases hrow : rows[i]? with
  | none => simp [List.getElem?_map, hrow]
  | some seed =>
      have hmem : seed ∈ rows := by
        have := List.getElem?_eq_some.mp hrow
        obtain ⟨hi, hget⟩ := this
        exact hget ▸ List.getElem_mem hi
      have h3 : seed.length = 3 := hrect seed hmem
      simp only [List.getElem?_map, hrow, Option.map_some]
      unfold PythonTracer.trace PythonTracer.traceWithCalls
      simp [atleast_2d, h3, validate_seeds_shape, NDArray.ndim, NDArray.shape,
        NDArray.rows]

/-- C9 witness: the theorem applied to a concrete rectangular batch of two
seeds. -/
theorem trace_independent_per_seed_witness :
    (∀ r ∈ [[(1 : ℤ), 0, 0], [5, 0, 0]], r.length = 3) ∧
    ∃ flines : List (FieldLine ℤ),
      t0.trace sampleOutput id (NDArray.twoD 3 [[1, 0, 0], [5, 0, 0]]) =
        Except.ok flines ∧
      flines.length = ([[(1 : ℤ), 0, 0], [5, 0, 0]] : List (List ℤ)).length ∧
      ∀ i : ℕ,
        (([[(1 : ℤ), 0, 0], [5, 0, 0]] : List (List ℤ))[i]?).map
            (fun seed => t0.trace sampleOutput id (NDArray.oneD seed)) =
          (flines[i]?).map (fun fl => Except.ok [fl]) :=
  ⟨by decide,
   trace_independent_per_seed t0 sampleOutput id [[1, 0, 0], [5, 0, 0]]
     (by decide)⟩

/-- C10: a single 1-D seed of exactly 3 coordinates is promoted by
`np.atleast_2d` to a `(1, 3)` batch before validation, and `trace` returns
the one-element field-line list instead of rejecting the rank-1 input. -/
theorem trace_accepts_single_1d_seed {α : Type} [Inhabited α]
    (t : PythonTracer) (output : Output α) (rsun : α → α) (seed : List α)
    (h3 : seed.length = 3) :
    atleast_2d (NDArray.oneD seed) = NDArray.twoD 3 [seed] ∧
    t.trace output rsun (NDArray.oneD seed) =
      Except.ok [t.traceOne output rsun seed] := by
  constructor
  · simp [atleast_2d, h3]
  · unfold PythonTracer.trace PythonTracer.traceWithCalls
    simp [atleast_2d, h3, validate_seeds_shape, NDArray.ndim, NDArray.shape,
      NDArray.rows]

/-- C10 witness: the theorem applied to a concrete 3-coordinate seed. -/
theorem trace_accepts_single_1d_seed_witness :
    ([(1 : ℤ), 0, 0] : List ℤ).length = 3 ∧
    (atleast_2d (NDArray.oneD [(1 : ℤ), 0, 0]) =
        NDArray.twoD 3 [[(1 : ℤ), 0, 0]] ∧
      t0.trace sampleOutput id (NDArray.oneD [(1 : ℤ), 0, 0]) =
        Except.ok [t0.traceOne sampleOutput id [1, 0, 0]]) :=
  ⟨rfl, trace_accepts_single_1d_seed t0 sampleOutput id [1, 0, 0] rfl⟩

end Pfsspy
